import Mathlib

/-!
Shallow embedding of `sopel_chanlogs/plugin.py` (a dual-sink channel logger
for Sopel IRC bots) and proofs about its behaviour.

Modelling conventions:
* Python strings are Lean `String`s; Python `None`/values are `Option`.
* A raised Python exception is a `PyError`; a function that may raise
  returns `Except PyError _` or pairs its observable side effects with
  `Option PyError` (the exception escaping it, if any).
* Side effects (file appends, database-logging calls, error-log lines)
  are recorded as an ordered `List Effect`, in the order the code
  performs them.
* `bot.make_identifier(s).lower()` is code of the host bot framework,
  not of this plugin; it is modelled as an abstract case-folding
  function `fold : String → String` carried by the `Bot` record.
* `get_datetime` reads the host clock (external); the `Bot` record
  carries the already-formatted ISO strings it would produce.
-/

namespace Chanlogs

/-- Python exceptions relevant to the plugin. -/
inductive PyError where
  | unboundLocalError (name : String)
  | indexError
  | keyError (name : String)
  | attributeError (name : String)
  | sqlAlchemyError
  | fileNotFoundError (path : String)
  deriving Repr, DecidableEq

/-- Observable side effects of a handler, in execution order.
`dbCall` records an invocation of `_log_to_database` together with the
arguments submitted (the record handed to the store sink);
`fileAppend` records a file-sink append of `data` to `path`;
`logError` records a `bot.logger.error(...)` line. -/
inductive Effect where
  | fileAppend (path : String) (data : String)
  | dbCall (channel : String) (nick : String) (event_type : String)
      (message_content : Option String) (formatted_line : String)
  | logError (msg : String)
  deriving Repr, DecidableEq

/-- The slice of a Sopel `Trigger` the plugin reads: the message text
(the `str` content of the trigger), `trigger.nick`, `trigger.sender`,
`trigger.args`, and whether `trigger.sender.is_nick()` holds (a host
predicate, carried as a field). -/
structure Trigger where
  text : String
  nick : String
  sender : String
  args : List String
  sender_is_nick : Bool
  deriving Repr, DecidableEq

/-- A template is rendered from the ISO datetime string, the trigger and
the optional `message` keyword argument (`_format_template`'s inputs that
the default templates read).  Rendering may raise (e.g. `IndexError` from
`{trigger.args[1]}`). -/
def TplFn : Type := String → Trigger → Option String → Except PyError String

/-- The value of the Python local `message` inside `log_message`.  It
starts as the Trigger; the action branch rebinds it to the slice
`message[8:-1]`, and slicing a Sopel Trigger (a `str` subclass whose
`nick`/`sender`/... are class properties) yields a plain `str` that
carries only the sliced text and none of the Trigger attributes. -/
inductive MsgLocal where
  | trig (t : Trigger)
  | plain (s : String)
  deriving Repr, DecidableEq

/-- Python attribute access `message.nick` on the local: raises
`AttributeError` once the local is a plain str. -/
def MsgLocal.nick : MsgLocal → Except PyError String
  | .trig t => .ok t.nick
  | .plain _ => .error (.attributeError "nick")

/-- Python attribute access `message.sender` on the local. -/
def MsgLocal.sender : MsgLocal → Except PyError String
  | .trig t => .ok t.sender
  | .plain _ => .error (.attributeError "sender")

/-- The str content of the local: what `{message}` formatting and the
`message_content` argument see. -/
def MsgLocal.text : MsgLocal → String
  | .trig t => t.text
  | .plain s => s

/-- Template type for `log_message`: unlike the other handlers, here the
value passed as the `trigger` format argument is the possibly rebound
local, so a `{trigger.<attr>}` reference inside the template is an
attribute access that can raise. -/
def MsgTplFn : Type := String → MsgLocal → Option String → Except PyError String

/-- `[chanlogs]` configuration section (`ChanlogsSection`). -/
structure Config where
  dir : String
  by_day : Bool
  privmsg : Bool
  microseconds : Bool
  localtime : Bool
  file_log : Bool
  db_log : Bool
  message_template : Option MsgTplFn
  action_template : Option MsgTplFn
  join_template : Option TplFn
  part_template : Option TplFn
  quit_template : Option TplFn
  nick_template : Option TplFn
  topic_template : Option TplFn

/-- One entry of `bot.channels`: the channel's name and the nicks in
`channel.users`. -/
structure Channel where
  name : String
  users : List String
  deriving Repr, DecidableEq

/-- The slice of the Sopel bot the plugin reads.  `fold` models
`bot.make_identifier(s).lower()` (the host's pluggable case-folding /
identifier rule); `datetimeIso`/`dateIso` are `get_datetime(bot)`'s
`isoformat()` renderings; `channels` is the current content of
`bot.channels.values()`. -/
structure Bot where
  config : Config
  fold : String → String
  datetimeIso : String
  dateIso : String
  channels : List Channel

/-- `MESSAGE_TPL = "{datetime}  <{trigger.nick}> {message}"`: the
`{trigger.nick}` reference is an attribute access on the local passed
as `trigger`. -/
def MESSAGE_TPL : MsgTplFn := fun dt trigger msg =>
  match trigger.nick with
  | .error e => .error e
  | .ok nk =>
    match msg with
    | some m => .ok (dt ++ "  <" ++ nk ++ "> " ++ m)
    | none => .error (.keyError "message")

/-- `ACTION_TPL = "{datetime}  * {trigger.nick} {message}"`: in
`log_message` this is only ever rendered after the action-branch
rebinding, when the local is a plain str, so the `{trigger.nick}`
access raises `AttributeError`. -/
def ACTION_TPL : MsgTplFn := fun dt trigger msg =>
  match trigger.nick with
  | .error e => .error e
  | .ok nk =>
    match msg with
    | some m => .ok (dt ++ "  * " ++ nk ++ " " ++ m)
    | none => .error (.keyError "message")

/-- `NICK_TPL = "{datetime}  *** {trigger.nick} is now known as {trigger.sender}"` -/
def NICK_TPL : TplFn := fun dt trig _ =>
  .ok (dt ++ "  *** " ++ trig.nick ++ " is now known as " ++ trig.sender)

/-- `JOIN_TPL = "{datetime}  *** {trigger.nick} has joined {trigger}"`
(`{trigger}` formats the trigger as its string content). -/
def JOIN_TPL : TplFn := fun dt trig _ =>
  .ok (dt ++ "  *** " ++ trig.nick ++ " has joined " ++ trig.text)

/-- `PART_TPL = "{datetime}  *** {trigger.nick} has left {trigger}"` -/
def PART_TPL : TplFn := fun dt trig _ =>
  .ok (dt ++ "  *** " ++ trig.nick ++ " has left " ++ trig.text)

/-- `QUIT_TPL = "{datetime}  *** {trigger.nick} has quit IRC"` -/
def QUIT_TPL : TplFn := fun dt trig _ =>
  .ok (dt ++ "  *** " ++ trig.nick ++ " has quit IRC")

/-- `TOPIC_TPL = "{datetime}  *** {trigger.nick} changed the topic to {trigger.args[1]}"`:
`{trigger.args[1]}` indexes `trigger.args`, raising `IndexError` when the
topic-text argument is absent. -/
def TOPIC_TPL : TplFn := fun dt trig _ =>
  match trig.args.get? 1 with
  | some topic => .ok (dt ++ "  *** " ++ trig.nick ++ " changed the topic to " ++ topic)
  | none => .error .indexError

/-- `BAD_CHARS = re.compile(r'[\/?%*:|"<>. ]')` — the character class is
`/ ? % * : | " < > . space` ( `\/` is an escaped slash). -/
def BAD_CHARS : List Char := ['/', '?', '%', '*', ':', '|', '"', '<', '>', '.', ' ']

def isBadChar (c : Char) : Bool := BAD_CHARS.contains c

/-- One character's image under `BAD_CHARS.sub('__', ·)`: a disallowed
character becomes the two-character token `__`, all others are kept. -/
def subChar (c : Char) : List Char :=
  if isBadChar c then ['_', '_'] else [c]

/-- `BAD_CHARS.sub('__', s)`. -/
def badCharsSub (s : String) : String := ⟨s.data.flatMap subChar⟩

/-- `s.lstrip("#")`: remove every leading `#`. -/
def lstripHash (s : String) : String := ⟨s.data.dropWhile (· = '#')⟩

/-- The channel-name normalization performed in `get_fpath` (and intended
in the database helpers): strip the `#` sigil, substitute disallowed
characters with `__`, then apply the host's case fold
(`bot.make_identifier(channel).lower()`). -/
def normalizeChannel (fold : String → String) (channel : String) : String :=
  fold (badCharsSub (lstripHash channel))

/-- `_should_log_to_file(bot)` -/
def should_log_to_file (bot : Bot) : Bool := bot.config.file_log

/-- `_should_log_to_db(bot)` -/
def should_log_to_db (bot : Bot) : Bool := bot.config.db_log

/-- `get_fpath(bot, trigger, channel=None)`.  `channel or trigger.sender`
falls back to the sender when `channel` is `None` or empty (falsy). -/
def get_fpath (bot : Bot) (trigger : Trigger) (channel : Option String) : String :=
  let basedir := bot.config.dir
  let ch0 :=
    match channel with
    | some c => if c = "" then trigger.sender else c
    | none => trigger.sender
  let ch := normalizeChannel bot.fold ch0
  let fname :=
    if bot.config.by_day then ch ++ "-" ++ bot.dateIso ++ ".log"
    else ch ++ ".log"
  basedir ++ "/" ++ fname

/-- `_format_template(tpl, bot, trigger, **kwargs)`: render and append a
newline. -/
def format_template (tpl : TplFn) (bot : Bot) (trigger : Trigger)
    (message : Option String) : Except PyError String :=
  match tpl bot.datetimeIso trigger message with
  | .ok s => .ok (s ++ "\n")
  | .error e => .error e

/-- `_format_template` as called from `log_message`, where the value
passed for `trigger` is the possibly rebound local. -/
def format_template_msg (tpl : MsgTplFn) (bot : Bot) (trigger : MsgLocal)
    (message : Option String) : Except PyError String :=
  match tpl bot.datetimeIso trigger message with
  | .ok s => .ok (s ++ "\n")
  | .error e => .error e

/-- `_log_to_database(bot, channel, nick, event_type, message_content, formatted_line)`.

The `try` body runs, in order:
`session = bot.db.session()`; `dt = get_datetime(bot)`; then
`clean_channel = bot.make_identifier(clean_channel).lower()` — the local
`clean_channel` is *read before its first assignment*, so Python raises
`UnboundLocalError` here, before the `ChannelLog` record is built and
before `session.add`/`session.commit` run.  The `except` clause catches
only `SQLAlchemyError` (logging and suppressing in that case); an
`UnboundLocalError` is not caught, so after the `finally` block closes
the session the exception propagates to the caller.

The returned effect list starts with the `dbCall` recording this
invocation's arguments (the record submitted to the store sink). -/
def log_to_database (bot : Bot) (channel : String) (nick : String)
    (event_type : String) (message_content : Option String)
    (formatted_line : String) : List Effect × Option PyError :=
  let submitted := Effect.dbCall channel nick event_type message_content formatted_line
  let raised : PyError := .unboundLocalError "clean_channel"
  match raised with
  | .sqlAlchemyError => ([submitted, .logError "Failed to log to database"], none)
  | e => ([submitted], some e)

/-- The CTCP ACTION test in `log_message`:
`message.startswith("\001ACTION ") and message.endswith("\001")`,
stated on the character lists. -/
def isActionText (text : String) : Bool :=
  "\x01ACTION ".data.isPrefixOf text.data && "\x01".data.isSuffixOf text.data

/-- The slice `message[8:-1]`: drop the 8-character `"\x01ACTION "` head
and the final character.  (In `log_message` this is only applied under
the `isActionText` guard, where the text has at least 9 characters.) -/
def stripAction (text : String) : String := ⟨(text.data.drop 8).dropLast⟩

/-- `log_message(bot, message)`: log every message, including Sopel's own.

In the action branch the source rebinds `message = message[8:-1]`,
turning the local into a plain str with no Trigger attributes
(`MsgLocal.plain`); afterwards every `message.<attr>` access raises
`AttributeError`.  Consequences, in source order:
* `_format_template(tpl, bot, message, message=message)` passes the
  local as the `trigger` format argument — the default `ACTION_TPL`
  raises at `{trigger.nick}`;
* `get_fpath(bot, message)` reads `message.sender` (the
  `channel or trigger.sender` fallback) before any file is opened;
* the database call evaluates its arguments `message.sender`,
  `message.nick` left to right before entering `_log_to_database`.
Effects appear in source order: the file append (when `file_log`), then
the database call (when `db_log`); an exception escaping any step
aborts the handler with the effects performed so far. -/
def log_message (bot : Bot) (message : Trigger) : List Effect × Option PyError :=
  -- if this is a private message and we're not logging those, return early
  if message.sender_is_nick && !bot.config.privmsg then ([], none)
  else
    let isAct := isActionText message.text
    let event_type := if isAct then "action" else "message"
    let tpl :=
      if isAct then bot.config.action_template.getD ACTION_TPL
      else bot.config.message_template.getD MESSAGE_TPL
    -- message = message[8:-1] (action branch only): the local becomes
    -- the plain str slice
    let local0 : MsgLocal :=
      if isAct then .plain (stripAction message.text) else .trig message
    match format_template_msg tpl bot local0 (some local0.text) with
    | .error e => ([], some e)
    | .ok logline =>
      let fileRes : Except PyError (List Effect) :=
        if should_log_to_file bot then
          match local0 with
          | .plain _ => .error (.attributeError "sender")
          | .trig t => .ok [Effect.fileAppend (get_fpath bot t none) logline]
        else .ok []
      match fileRes with
      | .error e => ([], some e)
      | .ok fileEffs =>
        if should_log_to_db bot then
          match local0 with
          | .plain _ => (fileEffs, some (PyError.attributeError "sender"))
          | .trig t =>
            let (dbEffs, err) :=
              log_to_database bot t.sender t.nick event_type (some local0.text) logline
            (fileEffs ++ dbEffs, err)
        else (fileEffs, none)

/-- `log_join(bot, trigger)`. -/
def log_join (bot : Bot) (trigger : Trigger) : List Effect × Option PyError :=
  let tpl := bot.config.join_template.getD JOIN_TPL
  match format_template tpl bot trigger none with
  | .error e => ([], some e)
  | .ok logline =>
    let fileEffs :=
      if should_log_to_file bot then
        [Effect.fileAppend (get_fpath bot trigger (some trigger.sender)) logline]
      else []
    if should_log_to_db bot then
      let (dbEffs, err) := log_to_database bot trigger.sender trigger.nick "join" none logline
      (fileEffs ++ dbEffs, err)
    else (fileEffs, none)

/-- `log_part(bot, trigger)`. -/
def log_part (bot : Bot) (trigger : Trigger) : List Effect × Option PyError :=
  let tpl := bot.config.part_template.getD PART_TPL
  match format_template tpl bot trigger none with
  | .error e => ([], some e)
  | .ok logline =>
    let fileEffs :=
      if should_log_to_file bot then
        [Effect.fileAppend (get_fpath bot trigger (some trigger.sender)) logline]
      else []
    if should_log_to_db bot then
      let (dbEffs, err) := log_to_database bot trigger.sender trigger.nick "part" none logline
      (fileEffs ++ dbEffs, err)
    else (fileEffs, none)

/-- Body of `log_quit`'s per-channel iteration for one snapshot channel
that the quitting nick is a member of. -/
def quit_channel_effects (bot : Bot) (trigger : Trigger) (logline : String)
    (ch : Channel) : List Effect × Option PyError :=
  let fileEffs :=
    if should_log_to_file bot then
      [Effect.fileAppend (get_fpath bot trigger (some ch.name)) logline]
    else []
  if should_log_to_db bot then
    let (dbEffs, err) := log_to_database bot ch.name trigger.nick "quit" none logline
    (fileEffs ++ dbEffs, err)
  else (fileEffs, none)

/-- `for channel in channels_copy: if trigger.nick in channel.users: ...`
inside `log_quit`; an exception escaping one iteration aborts the rest. -/
def log_quit_go (bot : Bot) (trigger : Trigger) (logline : String) :
    List Channel → List Effect × Option PyError
  | [] => ([], none)
  | ch :: rest =>
    if trigger.nick ∈ ch.users then
      match quit_channel_effects bot trigger logline ch with
      | (effs, some e) => (effs, some e)
      | (effs, none) =>
        let (more, err) := log_quit_go bot trigger logline rest
        (effs ++ more, err)
    else log_quit_go bot trigger logline rest

/-- `log_quit(bot, trigger)`: renders the line once, takes the
point-in-time snapshot `channels_copy = list(bot.channels.values())`,
and writes to every snapshot channel the quitting nick is a member of. -/
def log_quit (bot : Bot) (trigger : Trigger) : List Effect × Option PyError :=
  let tpl := bot.config.quit_template.getD QUIT_TPL
  match format_template tpl bot trigger none with
  | .error e => ([], some e)
  | .ok logline =>
    let channels_copy := bot.channels
    log_quit_go bot trigger logline channels_copy

/-- Body of `log_nick_change`'s per-channel iteration for one snapshot
channel containing the old or the new nick.  Note the database call
passes `new_nick` as the `message_content` argument. -/
def nick_channel_effects (bot : Bot) (trigger : Trigger) (logline : String)
    (old_nick new_nick : String) (ch : Channel) : List Effect × Option PyError :=
  let fileEffs :=
    if should_log_to_file bot then
      [Effect.fileAppend (get_fpath bot trigger (some ch.name)) logline]
    else []
  if should_log_to_db bot then
    let (dbEffs, err) := log_to_database bot ch.name old_nick "nick" (some new_nick) logline
    (fileEffs ++ dbEffs, err)
  else (fileEffs, none)

/-- Per-channel loop of `log_nick_change`. -/
def log_nick_go (bot : Bot) (trigger : Trigger) (logline : String)
    (old_nick new_nick : String) : List Channel → List Effect × Option PyError
  | [] => ([], none)
  | ch :: rest =>
    if old_nick ∈ ch.users || new_nick ∈ ch.users then
      match nick_channel_effects bot trigger logline old_nick new_nick ch with
      | (effs, some e) => (effs, some e)
      | (effs, none) =>
        let (more, err) := log_nick_go bot trigger logline old_nick new_nick rest
        (effs ++ more, err)
    else log_nick_go bot trigger logline old_nick new_nick rest

/-- `log_nick_change(bot, trigger)`: `old_nick = trigger.nick`,
`new_nick = trigger.sender`; fans out over the snapshot to channels
containing either nick. -/
def log_nick_change (bot : Bot) (trigger : Trigger) : List Effect × Option PyError :=
  let tpl := bot.config.nick_template.getD NICK_TPL
  match format_template tpl bot trigger none with
  | .error e => ([], some e)
  | .ok logline =>
    let old_nick := trigger.nick
    let new_nick := trigger.sender
    let channels_copy := bot.channels
    log_nick_go bot trigger logline old_nick new_nick channels_copy

/-- `log_topic(bot, trigger)`: the template is rendered *before* the
guarded `topic_content = trigger.args[1] if len(trigger.args) > 1 else None`,
so with the default `TOPIC_TPL` a missing topic argument raises
`IndexError` out of the handler with no effect performed. -/
def log_topic (bot : Bot) (trigger : Trigger) : List Effect × Option PyError :=
  let tpl := bot.config.topic_template.getD TOPIC_TPL
  match format_template tpl bot trigger none with
  | .error e => ([], some e)
  | .ok logline =>
    let topic_content := trigger.args.get? 1
    let fileEffs :=
      if should_log_to_file bot then
        [Effect.fileAppend (get_fpath bot trigger (some trigger.sender)) logline]
      else []
    if should_log_to_db bot then
      let (dbEffs, err) :=
        log_to_database bot trigger.sender trigger.nick "topic" topic_content logline
      (fileEffs ++ dbEffs, err)
    else (fileEffs, none)

/-- A row of the `channel_logs` table (`ChannelLog`). -/
structure DbRecord where
  timestamp : String
  channel : String
  nick : String
  event_type : String
  message : Option String
  raw_line : String
  deriving Repr, DecidableEq

/-- `get_recent_messages(bot, channel, limit=100)`.

Returns `.ok none` when `db_log` is disabled.  Otherwise the `try` body
reads the unassigned local `clean_channel`
(`clean_channel = bot.make_identifier(clean_channel).lower()`), raising
`UnboundLocalError` before the query runs; the `except SQLAlchemyError`
clause does not catch it, so after `finally` the exception propagates. -/
def get_recent_messages (bot : Bot) (channel : String) (limit : Nat) :
    Except PyError (Option (List DbRecord)) :=
  if !should_log_to_db bot then .ok none
  else
    let raised : PyError := .unboundLocalError "clean_channel"
    match raised with
    | .sqlAlchemyError => .ok none
    | e => .error e

/-- `search_messages(bot, channel, search_term, limit=50)`: same
structure (and same unbound-local read) as `get_recent_messages`. -/
def search_messages (bot : Bot) (channel : String) (search_term : String)
    (limit : Nat) : Except PyError (Option (List DbRecord)) :=
  if !should_log_to_db bot then .ok none
  else
    let raised : PyError := .unboundLocalError "clean_channel"
    match raised with
    | .sqlAlchemyError => .ok none
    | e => .error e

/-- A filesystem state: the set of existing directories and the existing
files with their contents. -/
structure FS where
  dirs : List String
  files : List (String × String)
  deriving Repr, DecidableEq

/-- The directory component of a path (everything before the last `/`). -/
def dirname (p : String) : String :=
  ⟨((p.data.reverse.dropWhile (· ≠ '/')).drop 1).reverse⟩

/-- Append `data` to the file at `path`, creating the file if needed. -/
def fsAppend (files : List (String × String)) (path : String) (data : String) :
    List (String × String) :=
  match files with
  | [] => [(path, data)]
  | (p, c) :: rest =>
    if p = path then (p, c ++ data) :: rest
    else (p, c) :: fsAppend rest path data

/-- The file-sink write in the handlers:
`with open(fpath, "ab") as f: f.write(logline.encode('utf8'))`.
`open(..., "ab")` creates the *file* if absent but performs no directory
creation: when the parent directory does not exist it raises
`FileNotFoundError`. -/
def file_sink_append (fs : FS) (path : String) (data : String) : Except PyError FS :=
  if fs.dirs.contains (dirname path) then
    .ok { dirs := fs.dirs, files := fsAppend fs.files path data }
  else .error (.fileNotFoundError path)

/-! ### Concrete fixtures used by witnesses and counterexamples -/

/-- The identity case fold, a trivially legal host identifier rule
(case-sensitive protocol). -/
def idFold : String → String := fun s => s

def testConfig : Config :=
  { dir := "/logs", by_day := false, privmsg := false,
    microseconds := false, localtime := false,
    file_log := true, db_log := true,
    message_template := none, action_template := none, join_template := none,
    part_template := none, quit_template := none, nick_template := none,
    topic_template := none }

def testBot : Bot :=
  { config := testConfig, fold := idFold,
    datetimeIso := "T", dateIso := "D",
    channels := [⟨"#a", ["alice", "bob"]⟩, ⟨"#b", ["alice"]⟩, ⟨"#c", ["bob"]⟩] }

def testBotNoDb : Bot :=
  { testBot with config := { testConfig with db_log := false } }

def quitTrig : Trigger :=
  { text := "", nick := "alice", sender := "alice", args := [], sender_is_nick := true }

/-! ### Normalization lemmas (claim C4) -/

/-- A string is free of the disallowed characters of `BAD_CHARS`. -/
def badFree (s : String) : Prop := ∀ c ∈ s.data, isBadChar c = false

/-- A string does not start with the channel sigil `#`. -/
def noLeadHash (s : String) : Prop := s.data.head? ≠ some '#'

theorem subChar_badFree (c : Char) : ∀ d ∈ subChar c, isBadChar d = false := by
  intro d hd
  unfold subChar at hd
  by_cases h : isBadChar c
  · rw [if_pos h] at hd
    have hde : d = '_' := by simpa using hd
    subst hde
    decide
  · rw [if_neg h] at hd
    have hde : d = c := by simpa using hd
    subst hde
    simpa using h

theorem flatMap_subChar_badFree (l : List Char) :
    ∀ c ∈ l.flatMap subChar, isBadChar c = false := by
  intro c hc
  rw [List.mem_flatMap] at hc
  obtain ⟨a, _, hca⟩ := hc
  exact subChar_badFree a c hca

theorem badCharsSub_badFree (s : String) : badFree (badCharsSub s) := by
  intro c hc
  exact flatMap_subChar_badFree s.data c hc

theorem flatMap_subChar_eq_self (l : List Char)
    (h : ∀ c ∈ l, isBadChar c = false) : l.flatMap subChar = l := by
  induction l with
  | nil => rfl
  | cons a t ih =>
    rw [List.flatMap_cons]
    have ha : isBadChar a = false := h a (List.mem_cons_self a t)
    have : subChar a = [a] := by unfold subChar; rw [if_neg (by simp [ha])]
    rw [this, ih (fun c hc => h c (List.mem_cons_of_mem a hc))]
    rfl

theorem badCharsSub_eq_self (s : String) (h : badFree s) : badCharsSub s = s := by
  cases s with
  | mk l => exact congrArg String.mk (flatMap_subChar_eq_self l h)

theorem dropWhile_head_ne (l : List Char) :
    ((l.dropWhile (· = '#')).head? ≠ some '#') := by
  induction l with
  | nil => simp [List.dropWhile]
  | cons a t ih =>
    by_cases h : a = '#'
    · simpa [List.dropWhile, h] using ih
    · simp [List.dropWhile, h]

theorem lstripHash_noLeadHash (s : String) : noLeadHash (lstripHash s) :=
  dropWhile_head_ne s.data

theorem lstripHash_eq_self (s : String) (h : noLeadHash s) : lstripHash s = s := by
  cases s with
  | mk l =>
    cases l with
    | nil => rfl
    | cons a t =>
      have ha : ¬(a = '#') := by
        intro hc
        exact h (by simp [hc])
      exact congrArg String.mk (by simp [List.dropWhile, ha])

theorem badCharsSub_noLeadHash (s : String) (h : noLeadHash s) :
    noLeadHash (badCharsSub s) := by
  cases s with
  | mk l =>
    cases l with
    | nil => simp [badCharsSub, noLeadHash]
    | cons a t =>
      have ha : ¬(a = '#') := by
        intro hc
        exact h (by simp [hc])
      unfold badCharsSub noLeadHash
      rw [List.flatMap_cons]
      unfold subChar
      by_cases hb : isBadChar a
      · rw [if_pos hb]
        simp
      · rw [if_neg hb]
        simpa using ha

/-- C4. The channel-name normalization of `get_fpath` (sigil strip,
disallowed-character substitution with `__`, host case fold) is
idempotent, and its result contains no disallowed character, for every
case fold that is itself idempotent, maps strings free of disallowed
characters to strings free of them, and does not introduce a leading
`#`.  Determinism is inherent: the embedding is a function. -/
theorem normalization_idempotent (fold : String → String)
    (hidem : ∀ s, fold (fold s) = fold s)
    (hbad : ∀ s, badFree s → badFree (fold s))
    (hhash : ∀ s, noLeadHash s → noLeadHash (fold s)) (x : String) :
    normalizeChannel fold (normalizeChannel fold x) = normalizeChannel fold x ∧
    badFree (normalizeChannel fold x) := by
  have hb : badFree (badCharsSub (lstripHash x)) := badCharsSub_badFree _
  have hh : noLeadHash (badCharsSub (lstripHash x)) :=
    badCharsSub_noLeadHash _ (lstripHash_noLeadHash x)
  have hbf : badFree (fold (badCharsSub (lstripHash x))) := hbad _ hb
  have hhf : noLeadHash (fold (badCharsSub (lstripHash x))) := hhash _ hh
  constructor
  · show fold (badCharsSub (lstripHash (normalizeChannel fold x))) = normalizeChannel fold x
    unfold normalizeChannel
    rw [lstripHash_eq_self _ hhf, badCharsSub_eq_self _ hbf, hidem]
  · exact hbf

/-- Witness for C4: the hypotheses hold for the identity fold (a legal,
case-sensitive identifier rule), and the property evaluates at the
concrete channel name `#A Chan.x`. -/
theorem normalization_idempotent_witness :
    normalizeChannel idFold (normalizeChannel idFold "#A Chan.x") =
      normalizeChannel idFold "#A Chan.x" ∧
    badFree (normalizeChannel idFold "#A Chan.x") :=
  normalization_idempotent idFold (fun _ => rfl) (fun _ h => h) (fun _ h => h) "#A Chan.x"

/-! ### Store-sink failure behaviour (claims C1, C2, C5) -/

/-- C1. Contrary to the claim that any failure during the insert is
suppressed and the call returns normally, `_log_to_database` always
raises: its body reads the local `clean_channel` before assigning it,
the resulting `UnboundLocalError` is not a `SQLAlchemyError`, and so it
escapes the handler for every channel, nick, event type, message content
and line. -/
theorem log_to_database_always_raises (bot : Bot) (channel nick event_type : String)
    (message_content : Option String) (formatted_line : String) :
    log_to_database bot channel nick event_type message_content formatted_line =
      ([Effect.dbCall channel nick event_type message_content formatted_line],
       some (.unboundLocalError "clean_channel")) := rfl

/-- C2. With the store sink disabled both query operations return a null
result, as claimed; but with the store sink enabled both raise
`UnboundLocalError` (the same read-before-assignment of `clean_channel`,
not caught by the `except SQLAlchemyError` clause), contrary to the
claim that they never raise. -/
theorem queries_behaviour (bot : Bot) (channel term : String) (n m : Nat) :
    (bot.config.db_log = false →
      get_recent_messages bot channel n = .ok none ∧
      search_messages bot channel term m = .ok none) ∧
    (bot.config.db_log = true →
      get_recent_messages bot channel n = .error (.unboundLocalError "clean_channel") ∧
      search_messages bot channel term m = .error (.unboundLocalError "clean_channel")) := by
  constructor
  · intro h
    constructor <;> simp [get_recent_messages, search_messages, should_log_to_db, h]
  · intro h
    constructor <;> simp [get_recent_messages, search_messages, should_log_to_db, h]

/-- Witness for C2 at concrete inputs: a db-enabled bot raises, a
db-disabled bot returns null. -/
theorem queries_behaviour_witness :
    (get_recent_messages testBotNoDb "#a" 100 = .ok none ∧
     search_messages testBotNoDb "#a" "hello" 50 = .ok none) ∧
    (get_recent_messages testBot "#a" 100 = .error (.unboundLocalError "clean_channel") ∧
     search_messages testBot "#a" "hello" 50 = .error (.unboundLocalError "clean_channel")) :=
  ⟨(queries_behaviour testBotNoDb "#a" "hello" 100 50).1 rfl,
   (queries_behaviour testBot "#a" "hello" 100 50).2 rfl⟩

/-- C5. Evaluation of `log_quit` at the failing input: the snapshot has
`alice` in `#a` and `#b` (and not in `#c`) and both sinks are enabled.
The claim asks for an entry per enabled sink in exactly `#a` and `#b`;
the code instead writes the file entry for `#a`, then the database call
for `#a` raises `UnboundLocalError`, aborting the handler — `#b`
receives no entry in either sink and no database row is ever written. -/
theorem log_quit_db_enabled_crashes :
    log_quit testBot quitTrig =
      ([Effect.fileAppend "/logs/a.log" "T  *** alice has quit IRC\n",
        Effect.dbCall "#a" "alice" "quit" none "T  *** alice has quit IRC\n"],
       some (.unboundLocalError "clean_channel")) := by decide

/-! ### Topic rendering (claim C6) -/

def topicTrig : Trigger :=
  { text := "", nick := "alice", sender := "#a", args := ["#a"], sender_is_nick := false }

/-- Counterexample to C6: at the concrete topic event whose `args` hold
only the channel (no topic text), the handler does not complete with a
log line — it performs no effect and raises `IndexError`, because the
default template `TOPIC_TPL` indexes `trigger.args[1]` with no
placeholder substitution. -/
theorem log_topic_no_text_cex :
    (log_topic testBot topicTrig).1 = [] ∧
    (log_topic testBot topicTrig).2 = some PyError.indexError := by decide

/-- C6 (amended). Rendering a topic-change event whose topic text
argument is absent raises `IndexError` out of the handler (from the
default template reference `{trigger.args[1]}`), producing no log line
and no store submission; no placeholder is substituted.  (Only the
separately computed `topic_content` store field is guarded to null, and
it is never reached.) -/
theorem log_topic_no_text (bot : Bot) (trigger : Trigger)
    (htpl : bot.config.topic_template = none)
    (hargs : trigger.args.get? 1 = none) :
    log_topic bot trigger = ([], some PyError.indexError) := by
  unfold log_topic format_template
  rw [htpl]
  simp only [Option.getD]
  unfold TOPIC_TPL
  rw [hargs]

/-- Witness for C6 at the concrete topic event with no topic text. -/
theorem log_topic_no_text_witness :
    log_topic testBot topicTrig = ([], some PyError.indexError) :=
  log_topic_no_text testBot topicTrig rfl rfl

/-! ### Private-message toggle (claim C7) -/

/-- C7. When the sender is a nick (private one-to-one conversation) and
the `privmsg` toggle is disabled, `log_message` returns before reaching
any sink: no file append, no database call, no error. -/
theorem private_message_dropped (bot : Bot) (message : Trigger)
    (h : (message.sender_is_nick && !bot.config.privmsg) = true) :
    log_message bot message = ([], none) := by
  unfold log_message
  rw [h]
  rfl

def privTrig : Trigger :=
  { text := "hi", nick := "bob", sender := "alice", args := [], sender_is_nick := true }

/-- Witness for C7: a concrete private message under the default
(disabled) `privmsg` toggle produces no effect. -/
theorem private_message_dropped_witness :
    (privTrig.sender_is_nick && !testBot.config.privmsg) = true ∧
    log_message testBot privTrig = ([], none) :=
  ⟨rfl, private_message_dropped testBot privTrig rfl⟩

/-! ### File-sink directory behaviour (claim C8) -/

/-- Counterexample to C8: on a fresh (empty) storage tree the append
does not create the absent parent directory and does not succeed — it
raises `FileNotFoundError`.  (The handlers call `open(fpath, "ab")`
directly; no `makedirs` appears anywhere in the plugin.) -/
theorem file_sink_fresh_tree_cex :
    file_sink_append ⟨[], []⟩ "/logs/a.log" "x\n" =
      .error (.fileNotFoundError "/logs/a.log") := rfl

/-- C8 (amended). The file-sink append performs no directory creation:
when the parent directory of the target path is absent the append fails
with `FileNotFoundError`, and a successful append leaves the set of
directories unchanged.  (The storage directory must already exist; the
host configuration machinery, outside this plugin, is what creates it at
startup.) -/
theorem file_sink_no_dir_creation (fs : FS) (path data : String) :
    (fs.dirs.contains (dirname path) = false →
      file_sink_append fs path data = .error (.fileNotFoundError path)) ∧
    (∀ fs', file_sink_append fs path data = .ok fs' → fs'.dirs = fs.dirs) := by
  constructor
  · intro h
    unfold file_sink_append
    rw [h]
    rfl
  · intro fs' h
    unfold file_sink_append at h
    by_cases hd : fs.dirs.contains (dirname path)
    · rw [if_pos hd] at h
      cases h
      rfl
    · rw [if_neg (by simpa using hd)] at h
      cases h

/-- Witness for C8: both conjuncts evaluated at concrete states — the
append fails on the empty tree, and a successful append into an
existing directory creates no directory. -/
theorem file_sink_no_dir_creation_witness :
    file_sink_append ⟨[], []⟩ "/logs/b.log" "y\n" =
      .error (.fileNotFoundError "/logs/b.log") ∧
    (FS.mk ["/logs"] [("/logs/b.log", "y\n")]).dirs = (FS.mk ["/logs"] []).dirs :=
  ⟨(file_sink_no_dir_creation ⟨[], []⟩ "/logs/b.log" "y\n").1 (by decide),
   (file_sink_no_dir_creation ⟨["/logs"], []⟩ "/logs/b.log" "y\n").2
     ⟨["/logs"], [("/logs/b.log", "y\n")]⟩ rfl⟩

/-! ### Message field of store submissions (claim C9) -/

theorem dbCall_mem_log_join (bot : Bot) (trig : Trigger) (ch nk et : String)
    (mc : Option String) (fl : String)
    (h : Effect.dbCall ch nk et mc fl ∈ (log_join bot trig).1) : mc = none := by
  unfold log_join at h
  simp only [] at h
  rcases hf : format_template (bot.config.join_template.getD JOIN_TPL) bot trig none with e | ll <;>
    rw [hf] at h
  · simp at h
  · simp only [log_to_database] at h
    split_ifs at h <;> simp_all

theorem dbCall_mem_log_part (bot : Bot) (trig : Trigger) (ch nk et : String)
    (mc : Option String) (fl : String)
    (h : Effect.dbCall ch nk et mc fl ∈ (log_part bot trig).1) : mc = none := by
  unfold log_part at h
  simp only [] at h
  rcases hf : format_template (bot.config.part_template.getD PART_TPL) bot trig none with e | ll <;>
    rw [hf] at h
  · simp at h
  · simp only [log_to_database] at h
    split_ifs at h <;> simp_all

theorem dbCall_mem_quit_channel (bot : Bot) (trig : Trigger) (ll : String)
    (c : Channel) (ch nk et : String) (mc : Option String) (fl : String)
    (h : Effect.dbCall ch nk et mc fl ∈ (quit_channel_effects bot trig ll c).1) :
    mc = none := by
  unfold quit_channel_effects log_to_database at h
  split_ifs at h <;> simp_all

theorem dbCall_mem_quit_go (bot : Bot) (trig : Trigger) (ll : String)
    (ch nk et : String) (mc : Option String) (fl : String) :
    ∀ chans : List Channel,
      Effect.dbCall ch nk et mc fl ∈ (log_quit_go bot trig ll chans).1 → mc = none := by
  intro chans
  induction chans with
  | nil => intro h; simp [log_quit_go] at h
  | cons c rest ih =>
    intro h
    unfold log_quit_go at h
    by_cases hm : trig.nick ∈ c.users
    · rw [if_pos hm] at h
      have hch := dbCall_mem_quit_channel bot trig ll c ch nk et mc fl
      rcases hq : quit_channel_effects bot trig ll c with ⟨effs, err⟩
      rw [hq] at h hch
      cases err with
      | some e => exact hch h
      | none =>
        have h' : Effect.dbCall ch nk et mc fl ∈ effs ++ (log_quit_go bot trig ll rest).1 := h
        rcases List.mem_append.mp h' with h2 | h2
        · exact hch h2
        · exact ih h2
    · rw [if_neg hm] at h
      exact ih h

theorem dbCall_mem_log_quit (bot : Bot) (trig : Trigger) (ch nk et : String)
    (mc : Option String) (fl : String)
    (h : Effect.dbCall ch nk et mc fl ∈ (log_quit bot trig).1) : mc = none := by
  unfold log_quit at h
  simp only [] at h
  rcases hf : format_template (bot.config.quit_template.getD QUIT_TPL) bot trig none with e | ll <;>
    rw [hf] at h
  · simp at h
  · exact dbCall_mem_quit_go bot trig ll ch nk et mc fl bot.channels h

theorem dbCall_mem_nick_channel (bot : Bot) (trig : Trigger) (ll : String)
    (old_nick new_nick : String) (c : Channel) (ch nk et : String)
    (mc : Option String) (fl : String)
    (h : Effect.dbCall ch nk et mc fl ∈
      (nick_channel_effects bot trig ll old_nick new_nick c).1) :
    mc = some new_nick := by
  unfold nick_channel_effects log_to_database at h
  split_ifs at h <;> simp_all

theorem dbCall_mem_nick_go (bot : Bot) (trig : Trigger) (ll : String)
    (old_nick new_nick : String) (ch nk et : String) (mc : Option String) (fl : String) :
    ∀ chans : List Channel,
      Effect.dbCall ch nk et mc fl ∈ (log_nick_go bot trig ll old_nick new_nick chans).1 →
      mc = some new_nick := by
  intro chans
  induction chans with
  | nil => intro h; simp [log_nick_go] at h
  | cons c rest ih =>
    intro h
    unfold log_nick_go at h
    by_cases hm : old_nick ∈ c.users || new_nick ∈ c.users
    · rw [if_pos hm] at h
      have hch := dbCall_mem_nick_channel bot trig ll old_nick new_nick c ch nk et mc fl
      rcases hq : nick_channel_effects bot trig ll old_nick new_nick c with ⟨effs, err⟩
      rw [hq] at h hch
      cases err with
      | some e => exact hch h
      | none =>
        have h' : Effect.dbCall ch nk et mc fl ∈
            effs ++ (log_nick_go bot trig ll old_nick new_nick rest).1 := h
        rcases List.mem_append.mp h' with h2 | h2
        · exact hch h2
        · exact ih h2
    · rw [if_neg hm] at h
      exact ih h

def nickTrig : Trigger :=
  { text := "", nick := "alice", sender := "newalice", args := [], sender_is_nick := true }

/-- Counterexample to C9: a concrete nick-change submission to the store
sink carries the new nickname — not a null message — in its message
field (`log_nick_change` passes `new_nick` as the `message_content`
argument of `_log_to_database`). -/
theorem nick_change_message_not_null_cex :
    Effect.dbCall "#a" "alice" "nick" (some "newalice")
        "T  *** alice is now known as newalice\n" ∈
      (log_nick_change testBot nickTrig).1 ∧
    (some "newalice" : Option String) ≠ none := by decide

/-- C9 (amended). Every store submission made by the join, part and quit
handlers carries a null message field; the nick-change handler instead
fills the message field with the new nickname (`trigger.sender`).  Only
message, action, topic — and, contrary to the claim, nick-change —
events carry message content. -/
theorem db_message_field_by_kind (bot : Bot) (trig : Trigger) (ch nk et : String)
    (mc : Option String) (fl : String) :
    (Effect.dbCall ch nk et mc fl ∈ (log_join bot trig).1 → mc = none) ∧
    (Effect.dbCall ch nk et mc fl ∈ (log_part bot trig).1 → mc = none) ∧
    (Effect.dbCall ch nk et mc fl ∈ (log_quit bot trig).1 → mc = none) ∧
    (Effect.dbCall ch nk et mc fl ∈ (log_nick_change bot trig).1 → mc = some trig.sender) := by
  refine ⟨dbCall_mem_log_join bot trig ch nk et mc fl,
          dbCall_mem_log_part bot trig ch nk et mc fl,
          dbCall_mem_log_quit bot trig ch nk et mc fl, ?_⟩
  intro h
  unfold log_nick_change at h
  simp only [] at h
  rcases hf : format_template (bot.config.nick_template.getD NICK_TPL) bot trig none with e | ll <;>
    rw [hf] at h
  · simp at h
  · exact dbCall_mem_nick_go bot trig ll trig.nick trig.sender ch nk et mc fl bot.channels h

/-- Witness for C9: concrete join and nick-change submissions, with the
membership hypotheses discharged by evaluation. -/
theorem db_message_field_by_kind_witness :
    ((none : Option String) = none) ∧ ((some "newalice" : Option String) = some nickTrig.sender) :=
  ⟨(db_message_field_by_kind testBot quitTrig "#a" "alice" "quit" none
      "T  *** alice has quit IRC\n").2.2.1 (by decide),
   (db_message_field_by_kind testBot nickTrig "#a" "alice" "nick" (some "newalice")
      "T  *** alice is now known as newalice\n").2.2.2 (by decide)⟩

/-! ### CTCP ACTION handling (claim C10) -/

/-- C10. Contrary to the claim, no action message is ever rendered or
stored: the action branch rebinds the local `message` to the plain-str
slice `message[8:-1]`, which has no Trigger attributes, so with the
default templates the `{trigger.nick}` reference of `ACTION_TPL`
raises `AttributeError` and the handler aborts with no file append and
no store submission (the classification locals `event_type = action`
and the stripped slice are computed, but no sink ever sees them).
Non-action messages are classified `message` and logged with their
text unmodified, as the claim states. -/
theorem message_action_outcome (bot : Bot) (trig : Trigger)
    (hdrop : (trig.sender_is_nick && !bot.config.privmsg) = false)
    (hm : bot.config.message_template = none)
    (ha : bot.config.action_template = none)
    (hf : bot.config.file_log = true)
    (hd : bot.config.db_log = true) :
    (isActionText trig.text = true →
      log_message bot trig = ([], some (.attributeError "nick"))) ∧
    (isActionText trig.text = false →
      log_message bot trig =
        ([Effect.fileAppend (get_fpath bot trig none)
            (bot.datetimeIso ++ "  <" ++ trig.nick ++ "> " ++ trig.text ++ "\n"),
          Effect.dbCall trig.sender trig.nick "message" (some trig.text)
            (bot.datetimeIso ++ "  <" ++ trig.nick ++ "> " ++ trig.text ++ "\n")],
         some (.unboundLocalError "clean_channel"))) := by
  constructor <;> intro hact <;>
    simp [log_message, hdrop, hact, hm, ha, should_log_to_file, should_log_to_db, hf, hd,
      format_template_msg, ACTION_TPL, MESSAGE_TPL, MsgLocal.nick, MsgLocal.sender,
      MsgLocal.text, log_to_database]

def actTrig : Trigger :=
  { text := "\x01ACTION waves\x01", nick := "al", sender := "#a", args := [],
    sender_is_nick := false }

def msgTrig : Trigger :=
  { text := "hello", nick := "al", sender := "#a", args := [], sender_is_nick := false }

/-- Witness for C10 at concrete inputs: the CTCP ACTION message aborts
with `AttributeError` and no effect; the plain message is logged with
its text unmodified. -/
theorem message_action_outcome_witness :
    log_message testBot actTrig = ([], some (.attributeError "nick")) ∧
    log_message testBot msgTrig =
      ([Effect.fileAppend (get_fpath testBot msgTrig none)
          (testBot.datetimeIso ++ "  <" ++ msgTrig.nick ++ "> " ++ msgTrig.text ++ "\n"),
        Effect.dbCall msgTrig.sender msgTrig.nick "message" (some msgTrig.text)
          (testBot.datetimeIso ++ "  <" ++ msgTrig.nick ++ "> " ++ msgTrig.text ++ "\n")],
       some (.unboundLocalError "clean_channel")) :=
  ⟨(message_action_outcome testBot actTrig rfl rfl rfl rfl rfl).1 (by decide),
   (message_action_outcome testBot msgTrig rfl rfl rfl rfl rfl).2 (by decide)⟩

end Chanlogs
